import Mathlib

/-!
Verification development for the `fonda` tool (src/fonda/src/main.rs): a
command-line program that converts a conda-style `environment.yaml` manifest
into a `requirements.txt` package list and provisions a Python virtual
environment.  Strings are embedded through their character lists
(`String.data`); the relevant Rust string functions (`trim`, `to_lowercase`,
`starts_with`, `split`, `find`, `contains`) are re-implemented below as
executable Lean functions with the same semantics on the inputs that occur.
-/

namespace Fonda

/-! ### String primitives (mirroring the Rust `str` methods used by main.rs) -/

/-- Rust `str::trim`: remove leading and trailing whitespace characters. -/
def trimL (l : List Char) : List Char :=
  ((l.dropWhile Char.isWhitespace).reverse.dropWhile Char.isWhitespace).reverse

/-- Rust `str::trim` on a `String`. -/
def strTrim (s : String) : String :=
  String.mk (trimL s.data)

/-- Rust `str::to_lowercase` (the inputs of interest are ASCII). -/
def strLower (s : String) : String :=
  String.mk (s.data.map Char.toLower)

/-- Rust `str::starts_with`. -/
def strStarts (s p : String) : Bool :=
  p.data.isPrefixOf s.data

/-- Rust `str::split(c)`: split at every occurrence of the character `c`;
always yields at least one (possibly empty) segment. -/
def splitOnC (c : Char) : List Char → List (List Char)
  | [] => [[]]
  | a :: as =>
    if a = c then [] :: splitOnC c as
    else
      match splitOnC c as with
      | [] => [[a]]
      | r :: rs => (a :: r) :: rs

/-- Rust `str::split(c)` on a `String`. -/
def strSplit (s : String) (c : Char) : List String :=
  (splitOnC c s.data).map String.mk

/-- Containment of `pat` as a contiguous sublist of `l`
(Rust `str::contains` with a literal pattern). -/
def isSubL (pat : List Char) : List Char → Bool
  | [] => pat.isEmpty
  | a :: as => pat.isPrefixOf (a :: as) || isSubL pat as

/-- Rust `str::contains` with a string pattern. -/
def strHas (s pat : String) : Bool :=
  isSubL pat.data s.data

/-- Rust `str::find('#')` followed by the two slices taken by main.rs:
`dep[0..idx]` (before the first `#`) and `dep[idx..]` (from the first `#`
onward); `none` when the entry has no `#`. -/
def findHash : List Char → Option (List Char × List Char)
  | [] => none
  | a :: as =>
    if a = '#' then some ([], a :: as)
    else (findHash as).map (fun p => (a :: p.1, p.2))

/-! ### Data model -/

/-- The spec's `PlatformTag`: the value of `std::env::consts::OS` relevant to
the marker filter, bound once per process.  `OS != "windows"` in main.rs is
modelled as `tag ≠ PlatformTag.windows`, and so on for the other two tags. -/
inductive PlatformTag where
  | windows
  | linux
  | macos
deriving DecidableEq, Repr

/-- The manifest structure deserialized in main.rs (struct `CondaEnv`). -/
structure CondaEnv where
  name : String
  python_version : Option String := none
  channels : Option (List String) := none
  dependencies : List String
  pip : Option (List String) := none

/-- The error enum of main.rs (`enum FondaError`), with the payloads of the
`Io`/`Yaml` variants reduced to their message strings. -/
inductive FondaError where
  | Io (msg : String)
  | Yaml (msg : String)
  | PythonNotFound (msg : String)
  | VenvCreationFailed (msg : String)
  | EnvironmentExists (name : String)
  | ConfigNotFound (msg : String)
  | RequirementsNotFound (msg : String)
  | CommandFailed (command : String) (error : String)
deriving DecidableEq, Repr

/-- The `Display` implementation for `FondaError` (used by `e.to_string()`
at the `VenvCreationFailed` wrap site). `\x27` is the ASCII apostrophe. -/
def FondaError.display : FondaError → String
  | .Io msg => "IO error: " ++ msg
  | .Yaml msg => "YAML parsing error: " ++ msg
  | .PythonNotFound msg => "Python not found: " ++ msg
  | .VenvCreationFailed msg => "Failed to create virtual environment: " ++ msg
  | .EnvironmentExists name => "Environment already exists: " ++ name
  | .ConfigNotFound msg => "Configuration file not found: " ++ msg
  | .RequirementsNotFound msg => "Requirements file not found: " ++ msg
  | .CommandFailed command error => "Command \x27" ++ command ++ "\x27 failed: " ++ error

/-- Constant `REQUIREMENTS_FILE` of main.rs. -/
def REQUIREMENTS_FILE : String := "requirements.txt"

/-- Constant `PYTHON_COMMANDS` of main.rs. -/
def PYTHON_COMMANDS : List String := ["python", "python3", "py"]

/-! ### Dependency normalizer

The per-entry normalization logic of `write_requirements_from_file`
(main.rs lines 268-391); the same code is duplicated verbatim inside
`create_and_run_with_file` (lines 448-541), so one embedding serves both. -/

/-- The non-pip-group branch (lines 276-330 and, for the pip section,
335-389): split at the first `#` when present, filter on the platform
markers found in the lower-cased comment, and emit the trimmed spec part
when it is non-empty. -/
def normalizeNonPip (os : PlatformTag) (dep : String) : List String :=
  match findHash dep.data with
  | some (pre, com) =>
    let package_spec := strTrim (String.mk pre)
    let comment_lower := strLower (strTrim (String.mk com))
    if strHas comment_lower "[win]" ∧ os ≠ PlatformTag.windows then []
    else if strHas comment_lower "[linux]" ∧ os ≠ PlatformTag.linux then []
    else if (strHas comment_lower "[osx]" ∨ strHas comment_lower "[darwin]") ∧ os ≠ PlatformTag.macos then []
    else if package_spec = "" then [] else [package_spec]
  | none =>
    let package_spec := strTrim dep
    if package_spec = "" then [] else [package_spec]

/-- One `dependencies`-section entry (lines 268-331): the `pip:` group branch
writes `dep.split(':').nth(1).unwrap_or("").split(',')`, each piece trimmed,
with no emptiness check; every other entry goes through the marker filter. -/
def normalizeDepEntry (os : PlatformTag) (dep : String) : List String :=
  if strStarts dep "pip:" then
    (strSplit ((strSplit dep ':').getD 1 "") ',').map strTrim
  else
    normalizeNonPip os dep

/-- One `pip`-section entry (lines 335-390): the pip section has no
`pip:`-group branch; entries go straight to the marker filter. -/
def normalizePipEntry (os : PlatformTag) (dep : String) : List String :=
  normalizeNonPip os dep

/-- The `for dep in &env.dependencies` loop, with the sequence of lines
written to the requirements file so far as explicit state. -/
def processDepsLoop (os : PlatformTag) (fileLines : List String) : List String → List String
  | [] => fileLines
  | dep :: rest => processDepsLoop os (fileLines ++ normalizeDepEntry os dep) rest

/-- The `for dep in pip_deps` loop over the optional pip section. -/
def processPipLoop (os : PlatformTag) (fileLines : List String) : List String → List String
  | [] => fileLines
  | dep :: rest => processPipLoop os (fileLines ++ normalizePipEntry os dep) rest

/-- Observable content (the sequence of lines) of the requirements file
produced by `write_requirements_from_file` (lines 255-396).  `File::create`
truncates the file, so the run starts from the empty line list and the
result is the file's entire content; the identical inline copy in
`create_and_run_with_file` (lines 443-541) is modelled by the same
function. -/
def write_requirements_from_file (os : PlatformTag) (env : CondaEnv) : List String :=
  let afterDeps := processDepsLoop os [] env.dependencies
  match env.pip with
  | some pip_deps => processPipLoop os afterDeps pip_deps
  | none => afterDeps

/-! ### Environment-name validation -/

/-- The error message of `validate_env_name` (main.rs line 609). -/
def envNameErrorMsg : String :=
  "Environment name must only contain alphanumeric characters, underscores, or hyphens"

/-- `validate_env_name` (main.rs lines 605-613): reject the empty string and
any string containing a character that is not ASCII-alphanumeric, `_` or
`-`.  `Char.isAlphanum` matches Rust `char::is_ascii_alphanumeric`. -/
def validate_env_name (name : String) : Except FondaError Unit :=
  if name = "" ∨ name.data.any (fun c => !c.isAlphanum && c != '_' && c != '-') then
    Except.error (FondaError.CommandFailed "validate_env_name" envNameErrorMsg)
  else
    Except.ok ()

/-! ### External process model and the provisioning state machine

External binaries are collaborators: a `World` fixes, for every command line,
whether spawning it fails (Rust `tokio::process::Command::output()` returning
`Err`) or yields an exit status with captured stdout/stderr, and which
filesystem paths exist.  `create_and_run_with_file` is then a pure function
of the manifest, the platform tag and the world, returning the requirements
lines it wrote, the ordered list of process invocations it spawned, and its
`Result`. -/

/-- Outcome of attempting to spawn one external process. -/
inductive SpawnOutcome where
  | launchFailure (msg : String)
  | exited (status : Int) (stdout stderr : String)

/-- `std::process::Output` as far as main.rs inspects it. -/
structure CmdOutput where
  status : Int
  stdout : String
  stderr : String

/-- The external world: process behavior and filesystem state. -/
structure World where
  spawn : String → List String → SpawnOutcome
  pathExists : String → Bool

/-- `run_command` (main.rs lines 207-224): returns `Err(CommandFailed)` only
when the process fails to launch; an exit with non-zero status is returned
as `Ok` — the exit status is never inspected. -/
def run_command (w : World) (command : String) (args : List String) :
    Except FondaError CmdOutput :=
  match w.spawn command args with
  | .launchFailure e =>
      .error (.CommandFailed (command ++ " " ++ String.intercalate " " args) e)
  | .exited st o e => .ok ⟨st, o, e⟩

/-- `get_python_command` (main.rs lines 398-411) together with the probe
invocations it performs: try each candidate with `--version`, accept the
first that launches and exits with status 0. -/
def get_python_command_aux (w : World) :
    List String → List (String × List String) × Except FondaError String
  | [] => ([], .error (.PythonNotFound "No Python installation found"))
  | cmd :: rest =>
    match w.spawn cmd ["--version"] with
    | .exited 0 _ _ => ([(cmd, ["--version"])], .ok cmd)
    | _ =>
      let r := get_python_command_aux w rest
      ((cmd, ["--version"]) :: r.1, r.2)

/-- `get_python_command` without its probe trace. -/
def get_python_command (w : World) : Except FondaError String :=
  (get_python_command_aux w PYTHON_COMMANDS).2

/-- Observable outcome of one `create_and_run_with_file` invocation. -/
structure RunTrace where
  written : List String
  spawned : List (String × List String)
  result : Except FondaError Unit

/-- The installation stage (main.rs lines 576-581): re-run interpreter
discovery, then `<python> -m pip install -r requirements.txt`; a launch
failure propagates as `CommandFailed` via `?`, any exit status is `Ok`. -/
def installPhase (w : World) (written : List String)
    (spawned : List (String × List String)) : RunTrace :=
  let probe := get_python_command_aux w PYTHON_COMMANDS
  match probe.2 with
  | .error e => ⟨written, spawned ++ probe.1, .error e⟩
  | .ok python_cmd =>
    let args := ["-m", "pip", "install", "-r", REQUIREMENTS_FILE]
    match run_command w python_cmd args with
    | .error e => ⟨written, spawned ++ probe.1 ++ [(python_cmd, args)], .error e⟩
    | .ok _ => ⟨written, spawned ++ probe.1 ++ [(python_cmd, args)], .ok ()⟩

/-- `create_and_run_with_file` (main.rs lines 433-596) after the manifest has
been read and parsed: write the requirements lines (lines 443-541, identical
to `write_requirements_from_file`), validate the environment name, check
that the target path does not exist, create the environment (`uv venv`
first, falling back to `<python> -m venv` only when the `uv` spawn itself
fails), then install.  `sanitize_path` always succeeds on valid UTF-8 and is
the identity here. -/
def create_and_run_with_file (w : World) (os : PlatformTag) (env : CondaEnv) :
    RunTrace :=
  let written := write_requirements_from_file os env
  match validate_env_name env.name with
  | .error e => ⟨written, [], .error e⟩
  | .ok _ =>
    if w.pathExists env.name then
      ⟨written, [], .error (.EnvironmentExists env.name)⟩
    else
      let uvArgs := ["venv", env.name]
      match run_command w "uv" uvArgs with
      | .ok _ => installPhase w written [("uv", uvArgs)]
      | .error _ =>
        let probe := get_python_command_aux w PYTHON_COMMANDS
        match probe.2 with
        | .error e => ⟨written, ("uv", uvArgs) :: probe.1, .error e⟩
        | .ok python_command =>
          let vArgs := ["-m", "venv", env.name]
          match run_command w python_command vArgs with
          | .ok _ =>
              installPhase w written (("uv", uvArgs) :: probe.1 ++ [(python_command, vArgs)])
          | .error e =>
              ⟨written, ("uv", uvArgs) :: probe.1 ++ [(python_command, vArgs)],
                .error (.VenvCreationFailed e.display)⟩

/-! ### Structural-parse model for the manifest entries

main.rs parses the manifest with a single structural YAML parse
(`serde_yaml::from_reader`, lines 261-262 and 440-441); there is no
raw-line re-scan anywhere in the file.  The functions below model the
external YAML parser's treatment of a plain (unquoted) block-sequence
scalar, per the YAML comment rule the library implements: a `#` at the
start of the scalar or preceded by whitespace begins a comment that
extends to the end of the line, and trailing whitespace of the scalar is
dropped. -/

/-- Scan the scalar text after its first character, cutting at the first
`#` that is preceded by a whitespace character (`prev` is the previous
character). -/
def stripYamlCommentAux (prev : Char) : List Char → List Char
  | [] => []
  | c :: cs =>
    if c = '#' ∧ prev.isWhitespace then []
    else c :: stripYamlCommentAux c cs

/-- Cut an unquoted scalar line at the comment it carries, if any. -/
def stripYamlComment : List Char → List Char
  | [] => []
  | c :: cs => if c = '#' then [] else c :: stripYamlCommentAux c cs

/-- The string value the structural parser delivers for one unquoted
sequence-item scalar: comment removed, surrounding whitespace trimmed. -/
def yamlPlainScalar (item : String) : String :=
  String.mk (trimL (stripYamlComment item.data))

/-! ### Claim-side definitions (formalizing the spec's wording) -/

/-- The platform markers present in a lower-cased comment, per the spec's
fixed order: `[win]`, `[linux]`, `[osx]`/`[darwin]`. -/
def markersOf (comment_lower : String) : List PlatformTag :=
  (if strHas comment_lower "[win]" then [PlatformTag.windows] else []) ++
  (if strHas comment_lower "[linux]" then [PlatformTag.linux] else []) ++
  (if strHas comment_lower "[osx]" ∨ strHas comment_lower "[darwin]" then [PlatformTag.macos] else [])

/-- The spec's inclusion condition: the bound tag matches every marker
present in the comment. -/
def specIncludes (tag : PlatformTag) (comment_lower : String) : Prop :=
  ∀ m ∈ markersOf comment_lower, m = tag

instance (tag : PlatformTag) (cl : String) : Decidable (specIncludes tag cl) := by
  unfold specIncludes; infer_instance

/-- Claim C3's reading of the pip-group remainder: everything after the
4-character prefix `pip:`. -/
def pipRemainder (dep : String) : String :=
  String.mk (dep.data.drop 4)

/-- Claim C3's output list: split the entire remainder on `,`, trim, keep
the non-empty pieces. -/
def pipGroupClaimPieces (dep : String) : List String :=
  (((strSplit (pipRemainder dep) ',').map strTrim).filter (fun s => s ≠ ""))

/-- What the code actually splits on `,`: the segment of the entry strictly
between the first `:` and the following `:` (the whole remainder when no
second `:` occurs), stated independently of `splitOnC`. -/
def pipSegment (dep : String) : String :=
  String.mk (((dep.data.dropWhile (fun c => c != ':')).drop 1).takeWhile (fun c => c != ':'))

/-! ### Concrete manifests and worlds used by the closed theorems below -/

/-- A manifest whose name fails `validate_env_name` (it contains a space). -/
def cexEnv : CondaEnv := { name := "bad name", dependencies := ["numpy"] }

/-- A world where every target path already exists and every process
invocation would succeed. -/
def occupiedWorld : World :=
  { spawn := fun _ _ => SpawnOutcome.exited 0 "" "", pathExists := fun _ => true }

/-- A manifest with a valid environment name. -/
def okEnv : CondaEnv := { name := "env1", dependencies := ["numpy"] }

/-- Manifest used to exhibit the `uv` exit-status bug. -/
def env5 : CondaEnv := { name := "myenv", dependencies := ["numpy"] }

/-- A world where `uv` launches but exits with status 1, while the python
probes and every other invocation succeed. -/
def uvFailWorld : World :=
  { spawn := fun cmd args =>
      if cmd = "uv" then SpawnOutcome.exited 1 "" "uv: venv creation failed"
      else if args = ["--version"] then SpawnOutcome.exited 0 "Python 3.12.0" ""
      else SpawnOutcome.exited 0 "" ""
    pathExists := fun _ => false }

/-- Manifest used to exhibit the pip-install exit-status bug. -/
def env6 : CondaEnv := { name := "pyenv", dependencies := ["numpy"] }

/-- A world where environment creation and the python probes succeed but
the pip install invocation exits with status 1 and an error on stderr. -/
def pipFailWorld : World :=
  { spawn := fun cmd args =>
      if cmd = "uv" then SpawnOutcome.exited 0 "" ""
      else if args = ["--version"] then SpawnOutcome.exited 0 "Python 3.12.0" ""
      else SpawnOutcome.exited 1 "" "ERROR: No matching distribution found for numpy"
    pathExists := fun _ => false }

/-- A manifest with an invalid name, for the validation-ordering witness. -/
def env9 : CondaEnv := { name := "bad name", dependencies := [] }

/-- A world with no pre-existing paths and all invocations succeeding. -/
def plainWorld : World :=
  { spawn := fun _ _ => SpawnOutcome.exited 0 "" "", pathExists := fun _ => false }

/-! ### Helper lemmas -/

theorem isPrefixOf_exists_append (p l : List Char) (h : p.isPrefixOf l = true) :
    ∃ t, l = p ++ t := by
  have h2 : p <+: l := by simpa using h
  obtain ⟨t, ht⟩ := h2
  exact ⟨t, ht.symm⟩

theorem isPrefixOf_cons_ne {a b : Char} (h : a ≠ b) (as bs : List Char) :
    (a :: as).isPrefixOf (b :: bs) = false := by
  simp [List.isPrefixOf, h]

theorem splitOnC_ne_nil (c : Char) (l : List Char) : splitOnC c l ≠ [] := by
  cases l with
  | nil => simp [splitOnC]
  | cons a as =>
    by_cases hac : a = c
    · simp [splitOnC, hac]
    · rcases hs : splitOnC c as with _ | ⟨r, rs⟩ <;> simp [splitOnC, hac, hs]

theorem splitOnC_cons_eq (c : Char) (as : List Char) :
    splitOnC c (c :: as) = [] :: splitOnC c as := by
  simp [splitOnC]

theorem splitOnC_cons_ne (c a : Char) (as : List Char) (h : a ≠ c) :
    splitOnC c (a :: as) = (a :: (splitOnC c as).getD 0 []) :: (splitOnC c as).tail := by
  rcases hs : splitOnC c as with _ | ⟨r, rs⟩
  · exact absurd hs (splitOnC_ne_nil c as)
  · simp [splitOnC, h, hs]

theorem splitOnC_getD_zero (c : Char) : ∀ l : List Char,
    (splitOnC c l).getD 0 [] = l.takeWhile (fun x => x != c) := by
  intro l
  induction l with
  | nil => rfl
  | cons a as ih =>
    by_cases hac : a = c
    · subst hac; rw [splitOnC_cons_eq]; simp
    · rw [splitOnC_cons_ne c a as hac, List.takeWhile_cons_of_pos (by simp [hac])]
      simp only [List.getD_cons_zero]
      rw [ih]

theorem splitOnC_length (c : Char) : ∀ l : List Char,
    (splitOnC c l).length = l.count c + 1 := by
  intro l
  induction l with
  | nil => simp [splitOnC]
  | cons a as ih =>
    by_cases hac : a = c
    · subst hac; rw [splitOnC_cons_eq]; simp [ih, List.count_cons]
    · rw [splitOnC_cons_ne c a as hac]
      rcases hs : splitOnC c as with _ | ⟨r, rs⟩
      · exact absurd hs (splitOnC_ne_nil c as)
      · rw [hs] at ih
        simp only [List.length_cons] at ih
        simp [List.count_cons, hac, ih]

theorem strStarts_exists_append (dep p : String) (h : strStarts dep p = true) :
    ∃ t, dep.data = p.data ++ t :=
  isPrefixOf_exists_append p.data dep.data h

theorem splitOnC_pipPfx (t : List Char) :
    splitOnC ':' ('p' :: 'i' :: 'p' :: ':' :: t) = ['p', 'i', 'p'] :: splitOnC ':' t := rfl

theorem dropWhile_pipPfx (t : List Char) :
    ('p' :: 'i' :: 'p' :: ':' :: t).dropWhile (fun c => c != ':') = ':' :: t := rfl

/-- The pip-group branch of `normalizeDepEntry`, characterized through the
independently-stated `pipSegment`: what gets split on `,` is exactly the
text between the first and the second `:` of the entry. -/
theorem pipBranch_eq (tag : PlatformTag) (dep : String) (h : strStarts dep "pip:" = true) :
    normalizeDepEntry tag dep =
      (splitOnC ',' (pipSegment dep).data).map (fun p => strTrim (String.mk p)) := by
  obtain ⟨t, ht⟩ := strStarts_exists_append dep "pip:" h
  have hseg : (strSplit dep ':').getD 1 "" = pipSegment dep := by
    unfold strSplit pipSegment
    rw [ht]
    show ((splitOnC ':' ('p' :: 'i' :: 'p' :: ':' :: t)).map String.mk).getD 1 "" = _
    rw [splitOnC_pipPfx]
    rcases hs : splitOnC ':' t with _ | ⟨r, rs⟩
    · exact absurd hs (splitOnC_ne_nil ':' t)
    · have h0 := splitOnC_getD_zero ':' t
      rw [hs] at h0
      simp only [List.getD_cons_zero] at h0
      simp only [hs, List.map_cons, List.getD_cons_succ, List.getD_cons_zero]
      rw [h0]
      show String.mk (t.takeWhile (fun x => x != ':')) = String.mk _
      rw [show ("pip:".data ++ t) = 'p' :: 'i' :: 'p' :: ':' :: t from rfl]
      rw [dropWhile_pipPfx]
      simp
  simp only [normalizeDepEntry, h, if_pos]
  rw [hseg]
  unfold strSplit
  rw [List.map_map]
  rfl

theorem strStarts_pip_false (dep : String)
    (h : strStarts dep "git+" = true ∨ strStarts dep "http://" = true ∨
         strStarts dep "https://" = true ∨ strStarts dep "-e " = true) :
    strStarts dep "pip:" = false := by
  rcases h with h | h | h | h <;>
    obtain ⟨t, ht⟩ := strStarts_exists_append _ _ h <;>
    unfold strStarts <;> rw [ht] <;> exact isPrefixOf_cons_ne (by decide) _ _

theorem processDepsLoop_eq (os : PlatformTag) : ∀ (l acc : List String),
    processDepsLoop os acc l = acc ++ l.flatMap (normalizeDepEntry os) := by
  intro l
  induction l with
  | nil => intro acc; simp [processDepsLoop]
  | cons d rest ih =>
    intro acc
    rw [processDepsLoop, ih]
    simp

theorem processPipLoop_eq (os : PlatformTag) : ∀ (l acc : List String),
    processPipLoop os acc l = acc ++ l.flatMap (normalizePipEntry os) := by
  intro l
  induction l with
  | nil => intro acc; simp [processPipLoop]
  | cons d rest ih =>
    intro acc
    rw [processPipLoop, ih]
    simp

/-! ### The claims -/

/-- C1: for every dependencies-section entry that does not start with
`pip:`: if the entry contains a `#`, the normalizer emits its trimmed spec
part exactly when the bound platform tag matches every marker present in
the trimmed, lower-cased comment (the three marker checks acting
independently, any mismatch excluding the entry, entries with no
recognized marker always passing) and the trimmed spec part is non-empty;
if the entry contains no `#`, the trimmed entry is emitted exactly when it
is non-empty. -/
theorem claim_c1 (tag : PlatformTag) (dep : String) (hp : strStarts dep "pip:" = false) :
    (∀ pre com, findHash dep.data = some (pre, com) →
      normalizeDepEntry tag dep =
        if specIncludes tag (strLower (strTrim (String.mk com))) ∧ strTrim (String.mk pre) ≠ ""
        then [strTrim (String.mk pre)] else []) ∧
    (findHash dep.data = none →
      normalizeDepEntry tag dep = if strTrim dep ≠ "" then [strTrim dep] else []) := by
  have hnd : normalizeDepEntry tag dep = normalizeNonPip tag dep := by
    simp [normalizeDepEntry, hp]
  constructor
  · intro pre com hf
    rw [hnd]
    unfold normalizeNonPip
    rw [hf]
    cases tag <;>
      cases hw : strHas (strLower (strTrim (String.mk com))) "[win]" <;>
      cases hl : strHas (strLower (strTrim (String.mk com))) "[linux]" <;>
      cases hx : strHas (strLower (strTrim (String.mk com))) "[osx]" <;>
      cases hd : strHas (strLower (strTrim (String.mk com))) "[darwin]" <;>
      simp [specIncludes, markersOf, hw, hl, hx, hd]
  · intro hf
    rw [hnd]
    unfold normalizeNonPip
    rw [hf]
    split <;> simp_all

/-- C1 witness: a Linux-marked entry is emitted, trimmed, on Linux. -/
theorem claim_c1_witness :
    normalizeDepEntry PlatformTag.linux "uvloop  # [linux]" = ["uvloop"] := by
  have h := (claim_c1 PlatformTag.linux "uvloop  # [linux]" (by decide)).1
      "uvloop  ".data "# [linux]".data (by decide)
  rw [h]
  decide

/-- C2 counterexample: a `git+` specifier containing `#` is NOT emitted
byte-for-byte; the code truncates it at the first `#`. -/
theorem claim_c2_counterexample :
    normalizeDepEntry PlatformTag.linux "git+https://example.com/r.git#egg=foo" =
      ["git+https://example.com/r.git"] ∧
    ¬ normalizeDepEntry PlatformTag.linux "git+https://example.com/r.git#egg=foo" =
        ["git+https://example.com/r.git#egg=foo"] := by decide

/-- C2 (amended): specifiers beginning with `git+`, `http://`, `https://`
or `-e ` receive no special handling — they take the generic non-pip path,
so an entry without `#` is emitted as its trimmed text, while any emission
from an entry containing `#` is the text before the first `#`, trimmed
(truncation at `#` does occur). -/
theorem claim_c2 (os : PlatformTag) (dep : String)
    (h : strStarts dep "git+" = true ∨ strStarts dep "http://" = true ∨
         strStarts dep "https://" = true ∨ strStarts dep "-e " = true) :
    normalizeDepEntry os dep = normalizeNonPip os dep ∧
    (findHash dep.data = none → strTrim dep ≠ "" → normalizeDepEntry os dep = [strTrim dep]) ∧
    (∀ pre com, findHash dep.data = some (pre, com) →
      ∀ s ∈ normalizeDepEntry os dep, s = strTrim (String.mk pre)) := by
  have hp := strStarts_pip_false dep h
  have hnd : normalizeDepEntry os dep = normalizeNonPip os dep := by
    simp [normalizeDepEntry, hp]
  refine ⟨hnd, ?_, ?_⟩
  · intro hf hne
    rw [hnd]
    unfold normalizeNonPip
    rw [hf]
    simp [hne]
  · intro pre com hf s hs
    rw [hnd] at hs
    unfold normalizeNonPip at hs
    rw [hf] at hs
    repeat' split at hs
    all_goals simp_all

/-- C2 witness: a `git+` specifier with no `#` passes through trimmed. -/
theorem claim_c2_witness :
    normalizeDepEntry PlatformTag.linux "git+https://x" = [strTrim "git+https://x"] :=
  (claim_c2 PlatformTag.linux "git+https://x" (Or.inl (by decide))).2.1 (by decide) (by decide)

/-- C3 counterexample: the code does not split the entire remainder after
`pip:` — `split(':').nth(1)` stops at the second `:`, so the claimed output
(split of the whole remainder on `,`, non-empty pieces) differs. -/
theorem claim_c3_counterexample :
    normalizeDepEntry PlatformTag.linux "pip:pkg==1.0:a,flask" = ["pkg==1.0"] ∧
    pipGroupClaimPieces "pip:pkg==1.0:a,flask" = ["pkg==1.0:a", "flask"] ∧
    ¬ normalizeDepEntry PlatformTag.linux "pip:pkg==1.0:a,flask" =
        pipGroupClaimPieces "pip:pkg==1.0:a,flask" := by decide

/-- C3 (amended): for every dependencies-section entry starting with
`pip:`, the normalizer splits the segment strictly between the first `:`
and any second `:` on `,`, trims each piece, and emits every piece
(including empty ones) unconditionally, with no platform filtering: the
result is identical for all platform tags. -/
theorem claim_c3 (t1 t2 : PlatformTag) (dep : String) (h : strStarts dep "pip:" = true) :
    normalizeDepEntry t1 dep = normalizeDepEntry t2 dep ∧
    normalizeDepEntry t1 dep =
      (splitOnC ',' (pipSegment dep).data).map (fun p => strTrim (String.mk p)) :=
  ⟨(pipBranch_eq t1 dep h).trans (pipBranch_eq t2 dep h).symm, pipBranch_eq t1 dep h⟩

/-- C3 witness: a two-package pip group expands to its two members. -/
theorem claim_c3_witness :
    normalizeDepEntry PlatformTag.linux "pip:flask,requests" = ["flask", "requests"] := by
  have h := (claim_c3 PlatformTag.linux PlatformTag.windows "pip:flask,requests" (by decide)).2
  rw [h]
  decide

/-- C4: the requirements file content equals the concatenation, in
manifest order, of the per-entry normalizer outputs — all dependencies
entries (in order) before all pip entries (in order), with no reordering,
deduplication or sorting; `File::create` truncation makes this the file's
entire content. -/
theorem claim_c4 (os : PlatformTag) (env : CondaEnv) :
    write_requirements_from_file os env =
      env.dependencies.flatMap (normalizeDepEntry os) ++
      (env.pip.getD []).flatMap (normalizePipEntry os) := by
  unfold write_requirements_from_file
  cases hp : env.pip with
  | none => simp [processDepsLoop_eq]
  | some pipDeps => simp [processDepsLoop_eq, processPipLoop_eq]

/-- C5 (code-bug evidence): in a world where `uv venv` launches but exits
with status 1, the engine does NOT fall back to the interpreter's venv
mode — no `-m venv` invocation is spawned — and the whole operation
reports success, because `run_command` never inspects the exit status. -/
theorem claim_c5 :
    uvFailWorld.spawn "uv" ["venv", "myenv"] =
      SpawnOutcome.exited 1 "" "uv: venv creation failed" ∧
    create_and_run_with_file uvFailWorld PlatformTag.linux env5 =
      { written := ["numpy"],
        spawned := [("uv", ["venv", "myenv"]), ("python", ["--version"]),
                    ("python", ["-m", "pip", "install", "-r", "requirements.txt"])],
        result := Except.ok () } :=
  ⟨rfl, rfl⟩

/-- C6 (code-bug evidence): in a world where the pip-install invocation
exits with status 1 and an error on stderr, `create_and_run_with_file`
still returns success — the installation exit status is never inspected
and the stderr content is never wrapped in any error. -/
theorem claim_c6 :
    pipFailWorld.spawn "python" ["-m", "pip", "install", "-r", "requirements.txt"] =
      SpawnOutcome.exited 1 "" "ERROR: No matching distribution found for numpy" ∧
    create_and_run_with_file pipFailWorld PlatformTag.linux env6 =
      { written := ["numpy"],
        spawned := [("uv", ["venv", "pyenv"]), ("python", ["--version"]),
                    ("python", ["-m", "pip", "install", "-r", "requirements.txt"])],
        result := Except.ok () } :=
  ⟨rfl, rfl⟩

/-- C7 counterexample: when the target path exists but the manifest name
fails validation, the operation errors with the validation failure, not
with `EnvironmentExists` — the claim's universal statement is false. -/
theorem claim_c7_counterexample :
    occupiedWorld.pathExists cexEnv.name = true ∧
    (create_and_run_with_file occupiedWorld PlatformTag.linux cexEnv).result =
      Except.error (FondaError.CommandFailed "validate_env_name" envNameErrorMsg) ∧
    FondaError.CommandFailed "validate_env_name" envNameErrorMsg ≠
      FondaError.EnvironmentExists cexEnv.name :=
  ⟨rfl, rfl, by decide⟩

/-- C7 (amended): provided the environment name passes validation, if a
filesystem entry already exists at the target environment path the
operation fails with `EnvironmentExists`, with the requirements file
already written in full and no external process spawned. -/
theorem claim_c7 (w : World) (os : PlatformTag) (env : CondaEnv)
    (hv : validate_env_name env.name = Except.ok ())
    (hx : w.pathExists env.name = true) :
    create_and_run_with_file w os env =
      { written := write_requirements_from_file os env, spawned := [],
        result := Except.error (FondaError.EnvironmentExists env.name) } := by
  unfold create_and_run_with_file
  rw [hv, hx]
  rfl

/-- C7 witness: a valid-named manifest against an occupied path. -/
theorem claim_c7_witness :
    create_and_run_with_file occupiedWorld PlatformTag.linux okEnv =
      { written := write_requirements_from_file PlatformTag.linux okEnv, spawned := [],
        result := Except.error (FondaError.EnvironmentExists "env1") } :=
  claim_c7 occupiedWorld PlatformTag.linux okEnv rfl rfl

/-- C8 (code-bug evidence): the structural YAML parse is the only parse in
main.rs; on the dependency line item `pywin32  # [win]` it strips the
unquoted trailing comment, so the entry reaching the normalizer is
`pywin32`, contains no `#`, and is emitted on Linux — whereas the same
entry with its comment preserved would have been excluded on Linux. -/
theorem claim_c8 :
    yamlPlainScalar "pywin32  # [win]" = "pywin32" ∧
    strHas (yamlPlainScalar "pywin32  # [win]") "#" = false ∧
    normalizeDepEntry PlatformTag.linux (yamlPlainScalar "pywin32  # [win]") = ["pywin32"] ∧
    normalizeDepEntry PlatformTag.linux "pywin32  # [win]" = [] := by decide

/-- C9: `validate_env_name` accepts exactly the non-empty strings whose
characters are all ASCII-alphanumeric, `_` or `-`; and whenever validation
fails, `create_and_run_with_file` spawns no external process (so the
failure precedes any filesystem mutation for the target environment). -/
theorem claim_c9 :
    (∀ name : String, validate_env_name name = Except.ok () ↔
      (name ≠ "" ∧ ∀ c ∈ name.data, c.isAlphanum = true ∨ c = '_' ∨ c = '-')) ∧
    (∀ (w : World) (os : PlatformTag) (env : CondaEnv) (e : FondaError),
      validate_env_name env.name = Except.error e →
      (create_and_run_with_file w os env).spawned = []) := by
  have key : ∀ c : Char, ((!c.isAlphanum && c != '_' && c != '-') = true) ↔
      ¬(c.isAlphanum = true ∨ c = '_' ∨ c = '-') := by
    intro c
    cases hb : c.isAlphanum <;> simp [hb]
  constructor
  · intro name
    unfold validate_env_name
    by_cases hc : name = "" ∨ name.data.any (fun c => !c.isAlphanum && c != '_' && c != '-') = true
    · rw [if_pos hc]
      constructor
      · intro h
        cases h
      · rintro ⟨h1, h2⟩
        exfalso
        rcases hc with hc | hc
        · exact h1 hc
        · rw [List.any_eq_true] at hc
          obtain ⟨c, hcmem, hcp⟩ := hc
          exact (key c).mp hcp (h2 c hcmem)
    · rw [if_neg hc]
      push_neg at hc
      obtain ⟨h1, h2⟩ := hc
      refine ⟨fun _ => ⟨h1, ?_⟩, fun _ => rfl⟩
      intro c hcmem
      by_contra hcon
      apply h2
      rw [List.any_eq_true]
      exact ⟨c, hcmem, (key c).mpr hcon⟩
  · intro w os env e he
    unfold create_and_run_with_file
    rw [he]

/-- C9 witness: `my_env-1` is accepted; a space-bearing name is rejected
with no process spawned. -/
theorem claim_c9_witness :
    validate_env_name "my_env-1" = Except.ok () ∧
    (create_and_run_with_file plainWorld PlatformTag.linux env9).spawned = [] :=
  ⟨(claim_c9.1 "my_env-1").mpr (by decide),
   claim_c9.2 plainWorld PlatformTag.linux env9
     (FondaError.CommandFailed "validate_env_name" envNameErrorMsg) rfl⟩

/-- C10: a pip-group entry always emits exactly one line per
comma-separated piece of the split segment — empty pieces included, so
blank lines are written rather than pieces dropped — and every piece's
trimmed text appears in the output. -/
theorem claim_c10 (tag : PlatformTag) (dep : String) (h : strStarts dep "pip:" = true) :
    (normalizeDepEntry tag dep).length = (pipSegment dep).data.count ',' + 1 ∧
    ∀ p ∈ splitOnC ',' (pipSegment dep).data,
      strTrim (String.mk p) ∈ normalizeDepEntry tag dep := by
  have he := pipBranch_eq tag dep h
  constructor
  · rw [he, List.length_map, splitOnC_length]
  · intro p hp
    rw [he]
    exact List.mem_map_of_mem _ hp

/-- C10 witness: `pip:flask,` emits one line per piece (two, one blank). -/
theorem claim_c10_witness :
    (normalizeDepEntry PlatformTag.linux "pip:flask,").length =
      (pipSegment "pip:flask,").data.count ',' + 1 :=
  (claim_c10 PlatformTag.linux "pip:flask," (by decide)).1

end Fonda
